import Mathlib

/-!
Verification of the diy-api failure-simulation service.

Shallow embedding of the request handlers in `backend/routers/simulate.py`
and the fault catalog in `backend/utils/errors.py`.  Python dictionaries
become association lists or functions to `Option`, wall-clock times and
float durations become rationals, `raise HTTPException(s, m)` becomes
`Except.error (s, m)`, and the nondeterministic inputs (timestamps, request
ids, random samples) become explicit parameters.
-/

namespace DiyApi

/-! ## Fault catalog (`backend/utils/errors.py`) -/

/-- The `error_catalog` dictionary of `get_error_details`:
status code to (title, message, fix). -/
def error_catalog : List (Int × (String × String × String)) :=
  [ (400, ("Bad Request",
      "The request contains invalid syntax or cannot be fulfilled.",
      "Check your request body, query parameters, and ensure all required fields are present and properly formatted.")),
    (401, ("Unauthorized",
      "Authentication credentials are missing or invalid.",
      "Include a valid API key in the \x27x-api-key\x27 header or check your authentication token.")),
    (403, ("Forbidden",
      "You don\x27t have permission to access this resource.",
      "Verify your account has the necessary permissions or contact support to upgrade your access level.")),
    (404, ("Not Found",
      "The requested endpoint or resource does not exist.",
      "Check the URL path and ensure you\x27re calling the correct endpoint. Verify the resource ID exists.")),
    (422, ("Unprocessable Entity",
      "The request body contains invalid or missing required fields.",
      "Validate your JSON payload against the API schema. Check field types and required properties.")),
    (429, ("Too Many Requests",
      "Rate limit exceeded. You\x27ve sent too many requests in a given time period.",
      "Implement exponential backoff in your client. Check the \x27Retry-After\x27 header for the wait time.")),
    (500, ("Internal Server Error",
      "An unexpected error occurred on the server side.",
      "This is likely a temporary issue. Try again in a few moments or contact support if it persists.")),
    (502, ("Bad Gateway",
      "The server received an invalid response from an upstream server.",
      "This indicates a temporary server issue. Retry your request with exponential backoff.")),
    (503, ("Service Unavailable",
      "The service is temporarily unavailable, often due to maintenance or overload.",
      "Wait a few minutes and try again. Check the service status page for maintenance announcements.")),
    (504, ("Gateway Timeout",
      "The server didn\x27t receive a response from an upstream server in time.",
      "Reduce request complexity or try again later. Consider implementing client-side timeouts.")) ]

/-- `get_error_details`: catalog lookup with the generic fallback for
codes absent from the catalog (the Python `f"HTTP status code {code} was
returned."` is the concatenation below). -/
def get_error_details (code : Int) : String × String × String :=
  match error_catalog.lookup code with
  | none =>
      ("Unknown Error",
       "HTTP status code " ++ toString code ++ " was returned.",
       "Refer to HTTP status code documentation for this specific error.")
  | some entry => entry

/-- The `causes_map` of `get_common_causes` in `simulate.py`. -/
def causes_map : List (Int × List String) :=
  [ (400, ["Invalid JSON syntax", "Missing required fields", "Invalid data types"]),
    (401, ["Missing API key", "Invalid credentials", "Expired token"]),
    (403, ["Insufficient permissions", "Account suspended", "IP blocked"]),
    (404, ["Wrong endpoint URL", "Resource deleted", "Typo in path"]),
    (422, ["Validation errors", "Business logic violations", "Invalid field values"]),
    (429, ["Too many requests", "Rate limit exceeded", "Burst limit reached"]),
    (500, ["Server bug", "Database connection error", "Unhandled exception"]),
    (502, ["Upstream server error", "Load balancer issues", "Network problems"]),
    (503, ["Server maintenance", "Overloaded server", "Temporary outage"]),
    (504, ["Slow upstream response", "Network timeout", "Processing timeout"]) ]

/-- `get_common_causes`: `causes_map.get(code, ["Unknown cause"])`. -/
def get_common_causes (code : Int) : List String :=
  (causes_map.lookup code).getD ["Unknown cause"]

/-! ## Status simulation handler (`simulate_status`) -/

/-- The `JSONResponse` produced by `simulate_status`: status code, the
fields of `response_data` (including the `debug_info` block), and the
headers dictionary as an ordered key/value list.  `timestamp` and
`request_id` are the handler's nondeterministic inputs, taken as
parameters of the embedding. -/
structure StatusResp where
  status_code : Int
  error : String
  code : Int
  message : String
  fix : String
  timestamp : String
  request_id : String
  endpoint : String
  param_code : Int
  param_include_headers : Bool
  common_causes : List String
  headers : List (String × String)
deriving DecidableEq

/-- `simulate_status(code, include_headers)`.  `ts` and `rid` stand for the
fresh timestamp and request id generated per call;
`raise HTTPException(400, msg)` is `Except.error (400, msg)`. -/
def simulate_status (ts rid : String) (code : Int) (include_headers : Bool) :
    Except (Nat × String) StatusResp :=
  if code < 200 ∨ code > 599 then
    .error (400, "Status code must be between 200-599")
  else
    let details := get_error_details code
    let title := details.1
    let headers : List (String × String) :=
      if include_headers then
        [("x-debug-mode", "true"),
         ("x-request-id", rid),
         ("x-error-type", (title.toLower).replace " " "_")] ++
        (if code = 429 then
          [("retry-after", "60"),
           ("x-ratelimit-limit", "100"),
           ("x-ratelimit-remaining", "0")]
         else if code = 401 then
          [("www-authenticate", "Bearer")]
         else [])
      else []
    .ok { status_code := code
          error := title
          code := code
          message := details.2.1
          fix := details.2.2
          timestamp := ts
          request_id := rid
          endpoint := "/simulate/status"
          param_code := code
          param_include_headers := include_headers
          common_causes := get_common_causes code
          headers := headers }

/-! ## Claim theorems for the catalog and status handler -/

/-- Claim C9: for every status code present in the static fault catalog the
lookup returns that entry's title, message and fix exactly, and for every
code absent from the catalog it returns the generic fallback whose title is
"Unknown Error" and whose message echoes the numeric code. -/
theorem get_error_details_catalog (code : Int) :
    (∀ t m f, error_catalog.lookup code = some (t, m, f) →
        get_error_details code = (t, m, f)) ∧
    (error_catalog.lookup code = none →
        get_error_details code =
          ("Unknown Error",
           "HTTP status code " ++ toString code ++ " was returned.",
           "Refer to HTTP status code documentation for this specific error.")) := by
  constructor
  · intro t m f h
    simp [get_error_details, h]
  · intro h
    simp [get_error_details, h]

/-- Witness for C9 at the known code 404 and the unknown code 418. -/
theorem get_error_details_catalog_witness :
    get_error_details 404 =
      ("Not Found",
       "The requested endpoint or resource does not exist.",
       "Check the URL path and ensure you\x27re calling the correct endpoint. Verify the resource ID exists.") ∧
    get_error_details 418 =
      ("Unknown Error",
       "HTTP status code 418 was returned.",
       "Refer to HTTP status code documentation for this specific error.") := by
  constructor
  · exact (get_error_details_catalog 404).1 _ _ _ (by decide)
  · exact (get_error_details_catalog 418).2 (by decide)

/-- Claim C3: for every integer code in [200, 599] the status handler
returns a response with that exact status code and a body whose `code`
field equals it; for every code outside [200, 599] it fails with the
validation error surfaced as a 400 and produces no simulated response. -/
theorem simulate_status_code_range (ts rid : String) (code : Int)
    (include_headers : Bool) :
    (200 ≤ code → code ≤ 599 →
      ∃ r, simulate_status ts rid code include_headers = .ok r ∧
        r.status_code = code ∧ r.code = code) ∧
    (code < 200 ∨ code > 599 →
      simulate_status ts rid code include_headers =
        .error (400, "Status code must be between 200-599")) := by
  constructor
  · intro h1 h2
    unfold simulate_status
    rw [if_neg (by omega)]
    exact ⟨_, rfl, rfl, rfl⟩
  · intro h
    rw [simulate_status, if_pos h]

/-- Witness for C3: code 404 yields a 404 response, code 600 is rejected. -/
theorem simulate_status_code_range_witness :
    (∃ r, simulate_status "t" "r" 404 true = .ok r ∧
        r.status_code = 404 ∧ r.code = 404) ∧
    simulate_status "t" "r" 600 true =
      .error (400, "Status code must be between 200-599") := by
  constructor
  · exact (simulate_status_code_range "t" "r" 404 true).1 (by decide) (by decide)
  · exact (simulate_status_code_range "t" "r" 600 true).2 (by decide)

/-- Claim C5: whenever `includeHeaders` is true (and the code is in range,
so a response is produced at all) the response carries the debug-mode flag
header, the request identifier header, and an error-type slug header equal
to the title lowercased with spaces replaced by underscores; additionally
a 429 carries `retry-after: 60` with rate-limit headers whose
remaining-quota value is zero, and a 401 carries a
`WWW-Authenticate: Bearer` challenge header. -/
theorem simulate_status_debug_headers (ts rid : String) (code : Int)
    (h1 : 200 ≤ code) (h2 : code ≤ 599) (r : StatusResp)
    (hr : simulate_status ts rid code true = .ok r) :
    ("x-debug-mode", "true") ∈ r.headers ∧
    ("x-request-id", rid) ∈ r.headers ∧
    ("x-error-type", ((get_error_details code).1.toLower).replace " " "_") ∈ r.headers ∧
    (code = 429 →
      ("retry-after", "60") ∈ r.headers ∧
      ("x-ratelimit-limit", "100") ∈ r.headers ∧
      ("x-ratelimit-remaining", "0") ∈ r.headers) ∧
    (code = 401 → ("www-authenticate", "Bearer") ∈ r.headers) := by
  rw [simulate_status, if_neg (by omega)] at hr
  have hhead := congrArg StatusResp.headers (Except.ok.inj hr)
  rw [← hhead]
  refine ⟨by simp, by simp, by simp, ?_, ?_⟩
  · intro h429
    subst h429
    refine ⟨by simp, by simp, by simp⟩
  · intro h401
    subst h401
    simp

/-- Witness for C5 at code 429. -/
theorem simulate_status_debug_headers_witness :
    ∃ r, simulate_status "t" "r" 429 true = .ok r ∧
      ("x-debug-mode", "true") ∈ r.headers ∧
      ("retry-after", "60") ∈ r.headers ∧
      ("x-ratelimit-remaining", "0") ∈ r.headers := by
  refine ⟨_, rfl, ?_⟩
  have h := simulate_status_debug_headers "t" "r" 429 (by decide) (by decide) _ rfl
  exact ⟨h.1, (h.2.2.2.1 rfl).1, (h.2.2.2.1 rfl).2.2⟩

/-! ## Malformed-JSON handler (`simulate_invalid_json`) -/

/-- The `json_errors` dictionary: error type to literal malformed body. -/
def json_errors : List (String × String) :=
  [ ("missing_comma",
     "\x7b\"status\": \"error\" \"message\": \"Missing comma between properties\"\x7d"),
    ("unclosed_brace",
     "\x7b\"status\": \"error\", \"message\": \"Unclosed brace\""),
    ("invalid_escape",
     "\x7b\"status\": \"error\", \"message\": \"Invalid escape \\q sequence\"\x7d"),
    ("trailing_comma",
     "\x7b\"status\": \"error\", \"message\": \"Trailing comma\",\x7d"),
    ("unquoted_key",
     "\x7bstatus: \"error\", \"message\": \"Unquoted key\"\x7d"),
    ("single_quotes",
     "\x7b\x27status\x27: \x27error\x27, \x27message\x27: \x27Single quotes instead of double\x27\x7d") ]

/-- The `PlainTextResponse` produced by `simulate_invalid_json`. -/
structure InvalidJsonResp where
  body : String
  status_code : Nat
  headers : List (String × String)
deriving DecidableEq

/-- `simulate_invalid_json(error_type)`: unknown error types are replaced
by `missing_comma` before the (then infallible) dictionary access; the
`getD` default is unreachable. -/
def simulate_invalid_json (error_type : String) : InvalidJsonResp :=
  let error_type :=
    if (json_errors.lookup error_type).isNone then "missing_comma" else error_type
  { body := (json_errors.lookup error_type).getD ""
    status_code := 200
    headers :=
      [("content-type", "application/json"),
       ("x-debug-mode", "true"),
       ("x-json-error-type", error_type),
       ("x-expected-error", "JSON parse error")] }

/-- A successful association-list lookup returns one of the stored values. -/
theorem lookup_mem_values {α β : Type} [BEq α] [LawfulBEq α]
    {l : List (α × β)} {k : α} {v : β} (h : l.lookup k = some v) :
    v ∈ l.map Prod.snd := by
  induction l with
  | nil => simp [List.lookup] at h
  | cons p t ih =>
      rw [List.lookup] at h
      by_cases hk : k == p.1
      · simp [hk] at h
        simp [← h]
      · simp [hk] at h
        simp [ih h]

/-- Claim C7: for every `errorType` the malformed-JSON handler returns
status 200 with content-type declared as JSON and one of the literal
constant bodies; unknown error types silently fall back to the
`missing_comma` response, and the `missing_comma` body is exactly the
literal `{"status": "error" "message": "Missing comma between properties"}`. -/
theorem simulate_invalid_json_contract (error_type : String) :
    (simulate_invalid_json error_type).status_code = 200 ∧
    ("content-type", "application/json") ∈ (simulate_invalid_json error_type).headers ∧
    (simulate_invalid_json error_type).body ∈ json_errors.map Prod.snd ∧
    (json_errors.lookup error_type = none →
      simulate_invalid_json error_type = simulate_invalid_json "missing_comma") ∧
    (simulate_invalid_json "missing_comma").body =
      "\x7b\"status\": \"error\" \"message\": \"Missing comma between properties\"\x7d" := by
  refine ⟨rfl, ?_, ?_, ?_, ?_⟩
  · simp [simulate_invalid_json]
  · cases h : json_errors.lookup error_type with
    | none =>
        have hfall : simulate_invalid_json error_type =
            simulate_invalid_json "missing_comma" := by
          simp [simulate_invalid_json, h]
        rw [hfall]
        decide
    | some b =>
        have hbody : (simulate_invalid_json error_type).body = b := by
          simp [simulate_invalid_json, h]
        rw [hbody]
        exact lookup_mem_values h
  · intro h
    simp [simulate_invalid_json, h]
  · rfl

/-- Witness for C7 at the unknown error type "bogus". -/
theorem simulate_invalid_json_contract_witness :
    (simulate_invalid_json "bogus").status_code = 200 ∧
    simulate_invalid_json "bogus" = simulate_invalid_json "missing_comma" := by
  have h := simulate_invalid_json_contract "bogus"
  exact ⟨h.1, h.2.2.2.1 (by decide)⟩

/-! ## Delay handler (`simulate_slow`) -/

/-- The success body of `simulate_slow` (the fields the contract is about;
the formatted message and the measured wall-clock elapsed time are not
modelled).  Durations are rationals. -/
structure SlowResp where
  delay_seconds : ℚ
  requested_delay : Int
  jitter_applied : Bool
deriving DecidableEq

/-- `simulate_slow(seconds, jitter)`.  `jitterSample` stands for the value
drawn from `random.uniform(-1, 2)`; it is only read when `jitter` is true. -/
def simulate_slow (jitterSample : ℚ) (seconds : Int) (jitter : Bool) :
    Except (Nat × String) SlowResp :=
  if seconds > 30 then
    .error (400, "Maximum delay is 30 seconds")
  else
    let actual_delay : ℚ :=
      if jitter then max (1/10) ((seconds : ℚ) + jitterSample)
      else (seconds : ℚ)
    .ok { delay_seconds := actual_delay
          requested_delay := seconds
          jitter_applied := jitter }

/-- Claim C6: the delay handler rejects `seconds > 30` with a validation
error surfaced as 400 and applies no delay; for `seconds ≤ 30` the applied
delay is `seconds + uniform(-1,2)` floored at the 0.1-second minimum when
jitter is on, and exactly `seconds` when jitter is off, with the response
reporting the requested delay, the applied delay and the jitter flag. -/
theorem simulate_slow_contract (jitterSample : ℚ) (seconds : Int) (jitter : Bool) :
    (seconds > 30 →
      simulate_slow jitterSample seconds jitter =
        .error (400, "Maximum delay is 30 seconds")) ∧
    (seconds ≤ 30 →
      simulate_slow jitterSample seconds jitter =
        .ok { delay_seconds :=
                if jitter then max (1/10) ((seconds : ℚ) + jitterSample)
                else (seconds : ℚ)
              requested_delay := seconds
              jitter_applied := jitter }) := by
  constructor
  · intro h
    rw [simulate_slow, if_pos h]
  · intro h
    rw [simulate_slow, if_neg (by omega)]

/-- Witness for C6: seconds = 31 is rejected; seconds = 5 with jitter
sample 1/2 applies delay 11/2. -/
theorem simulate_slow_contract_witness :
    simulate_slow 0 31 false = .error (400, "Maximum delay is 30 seconds") ∧
    simulate_slow (1/2) 5 true =
      .ok { delay_seconds := 11/2, requested_delay := 5, jitter_applied := true } := by
  constructor
  · exact (simulate_slow_contract 0 31 false).1 (by decide)
  · have h := (simulate_slow_contract (1/2) 5 true).2 (by decide)
    rw [h]
    norm_num

/-! ## Network-error handler (`simulate_network_error`) -/

/-- Outcome of `simulate_network_error`: either a raised `HTTPException`
(status, detail) or a structured `JSONResponse` whose claim-relevant
fields are listed. -/
inductive NetworkErrorResult where
  | httpError (status : Nat) (detail : String)
  | response (status : Nat) (error : String) (code : Int) (message : String)
      (fix : String) (debug_error_type : String) (common_causes : List String)
deriving DecidableEq

/-- `simulate_network_error(error_type)`. -/
def simulate_network_error (error_type : String) : NetworkErrorResult :=
  if error_type = "connection_reset" then
    .httpError 500 "Connection reset by peer"
  else if error_type = "dns_failure" then
    .response 502 "Bad Gateway" 502
      "DNS resolution failed for upstream service"
      "Check network connectivity and DNS settings"
      "dns_resolution_failure"
      ["Network connectivity issues", "DNS server problems", "Firewall blocking DNS"]
  else if error_type = "ssl_error" then
    .response 502 "SSL/TLS Error" 502
      "SSL certificate verification failed"
      "Check SSL certificate validity and chain"
      "ssl_verification_failure"
      ["Expired certificate", "Self-signed certificate", "Certificate chain issues"]
  else
    .httpError 400 "Unknown network error type"

/-- Claim C8: `connection_reset` fails with a simulated 500 "Connection
reset by peer"; `dns_failure` returns a structured 502 body with
`debug_info.error_type = "dns_resolution_failure"` and its fixed
common-causes list; `ssl_error` returns a structured 502 body describing
certificate verification failure with its fixed common-causes list; any
other value fails with the validation error 400 "Unknown network error
type". -/
theorem simulate_network_error_contract (error_type : String) :
    (error_type = "connection_reset" →
      simulate_network_error error_type = .httpError 500 "Connection reset by peer") ∧
    (error_type = "dns_failure" →
      simulate_network_error error_type =
        .response 502 "Bad Gateway" 502
          "DNS resolution failed for upstream service"
          "Check network connectivity and DNS settings"
          "dns_resolution_failure"
          ["Network connectivity issues", "DNS server problems", "Firewall blocking DNS"]) ∧
    (error_type = "ssl_error" →
      simulate_network_error error_type =
        .response 502 "SSL/TLS Error" 502
          "SSL certificate verification failed"
          "Check SSL certificate validity and chain"
          "ssl_verification_failure"
          ["Expired certificate", "Self-signed certificate", "Certificate chain issues"]) ∧
    (error_type ≠ "connection_reset" → error_type ≠ "dns_failure" →
      error_type ≠ "ssl_error" →
      simulate_network_error error_type = .httpError 400 "Unknown network error type") := by
  refine ⟨?_, ?_, ?_, ?_⟩
  · intro h; simp [simulate_network_error, h]
  · intro h; simp [simulate_network_error, h]
  · intro h; simp [simulate_network_error, h]
  · intro h1 h2 h3
    simp [simulate_network_error, h1, h2, h3]

/-- Witness for C8 at `dns_failure` and at the unknown type "tcp_melt". -/
theorem simulate_network_error_contract_witness :
    simulate_network_error "dns_failure" =
      .response 502 "Bad Gateway" 502
        "DNS resolution failed for upstream service"
        "Check network connectivity and DNS settings"
        "dns_resolution_failure"
        ["Network connectivity issues", "DNS server problems", "Firewall blocking DNS"] ∧
    simulate_network_error "tcp_melt" = .httpError 400 "Unknown network error type" := by
  constructor
  · exact (simulate_network_error_contract "dns_failure").2.1 rfl
  · exact (simulate_network_error_contract "tcp_melt").2.2.2
      (by decide) (by decide) (by decide)

/-! ## Rate-limit handler (`simulate_rate_limit`) -/

/-- One entry of the `request_counts` dictionary:
`{"count": ..., "window_start": ...}`. -/
structure CountData where
  count : Int
  window_start : ℚ
deriving DecidableEq

/-- The `request_counts` dictionary: client ip to its counter. -/
def Store : Type := String → Option CountData

/-- Python `int(...)` on a float/rational: truncation toward zero. -/
def pyTrunc (q : ℚ) : Int := if 0 ≤ q then ⌊q⌋ else ⌈q⌉

/-- The three responses `simulate_rate_limit` can produce, carrying the
claim-relevant body fields and the headers dictionary. -/
inductive RLResp where
  | resetDone (message : String) (limit window : Int)
  | limited (retry_after : Int) (limit remaining window : Int)
      (current_count : Int) (window_start : ℚ) (client_ip : String)
      (headers : List (String × String))
  | success (limit remaining window current_count : Int)
      (headers : List (String × String))
deriving DecidableEq

/-- HTTP status of an `RLResp` (`JSONResponse` defaults to 200). -/
def RLResp.status : RLResp → Nat
  | .resetDone .. => 200
  | .limited .. => 429
  | .success .. => 200

/-- The `retry_after` body field, present only on the 429 response. -/
def RLResp.retryAfter : RLResp → Option Int
  | .limited r .. => some r
  | _ => none

/-- The remaining-quota body field, present only on the 200 success. -/
def RLResp.remainingQuota : RLResp → Option Int
  | .success _ r _ _ _ => some r
  | _ => none

/-- `simulate_rate_limit(request, limit, window, reset_counts)` as a
function of the store, the client ip derived from the request, and the
current wall-clock time; it returns the response together with the store
after the call (the Python code mutates `request_counts` in place). -/
def simulate_rate_limit (store : Store) (client_ip : String) (current_time : ℚ)
    (limit window : Int) (reset_counts : Bool) : RLResp × Store :=
  if reset_counts then
    (.resetDone ("Rate limit counter reset for " ++ client_ip) limit window,
     fun k => if k = client_ip then none else store k)
  else
    let fetched : CountData :=
      match store client_ip with
      | none => ⟨0, current_time⟩
      | some d => d
    let count_data : CountData :=
      if current_time - fetched.window_start > (window : ℚ) then
        ⟨0, current_time⟩
      else fetched
    if count_data.count ≥ limit then
      let time_remaining : ℚ := (window : ℚ) - (current_time - count_data.window_start)
      let retry : Int := pyTrunc time_remaining + 1
      (.limited retry limit 0 window count_data.count count_data.window_start client_ip
        [("retry-after", toString retry),
         ("x-ratelimit-limit", toString limit),
         ("x-ratelimit-remaining", "0"),
         ("x-ratelimit-reset", toString (pyTrunc (count_data.window_start + (window : ℚ)))),
         ("x-debug-mode", "true")],
       fun k => if k = client_ip then some count_data else store k)
    else
      let new_data : CountData := ⟨count_data.count + 1, count_data.window_start⟩
      let remaining : Int := limit - new_data.count
      (.success limit remaining window new_data.count
        [("x-ratelimit-limit", toString limit),
         ("x-ratelimit-remaining", toString remaining),
         ("x-ratelimit-reset", toString (pyTrunc (new_data.window_start + (window : ℚ))))],
       fun k => if k = client_ip then some new_data else store k)

/-- The remaining window seconds "rounded up, minimum 1" named by claim
C1's retry-after sentence. -/
def ceilMinOne (q : ℚ) : Int := max ⌈q⌉ 1

/-- Counterexample to claim C1 as stated: with a counter at count 3,
window start 0, and the call at time 57 with limit 3 and window 60, the
remaining window is exactly 3 seconds, so "rounded up (minimum 1)" gives
3, but the handler returns `retry_after = int(3) + 1 = 4`. -/
theorem retry_after_not_rounded_up_at_whole_seconds :
    ((simulate_rate_limit
        (fun k => if k = "1.2.3.4" then some ⟨3, 0⟩ else none)
        "1.2.3.4" 57 3 60 false).1).retryAfter = some 4 ∧
    (60 : ℚ) - (57 - 0) = 3 ∧ ceilMinOne 3 = 3 ∧ (4 : Int) ≠ 3 := by
  refine ⟨?_, by norm_num, ?_, by decide⟩
  · rw [simulate_rate_limit]
    norm_num [RLResp.retryAfter, pyTrunc]
  · rw [ceilMinOne]
    norm_num

/-- Claim C1 (amended): for every non-reset call, with `d0` the
fetched-or-created counter and `d1` the counter after the window-rollover
step (count reset to 0 and window start to now when the elapsed time
exceeds the window), the handler returns 429 without incrementing when
`d1.count ≥ limit`, with `retry_after` equal to ONE PLUS THE INTEGER PART
of the remaining window seconds — which is the remaining seconds rounded
up whenever they are fractional, is at least 1 whenever the remaining
time is nonnegative, but is one more than claim C1's rounded-up value at
whole-second remainders; otherwise it increments the count by exactly 1
and returns 200 with remaining quota `limit - count`.  Keys of other
clients are untouched. -/
theorem simulate_rate_limit_step (store : Store) (client_ip : String)
    (now : ℚ) (limit window : Int) (d0 d1 : CountData)
    (h0 : d0 = match store client_ip with
               | none => ⟨0, now⟩
               | some d => d)
    (h1 : d1 = if now - d0.window_start > (window : ℚ) then ⟨0, now⟩ else d0) :
    (d1.count ≥ limit →
      (simulate_rate_limit store client_ip now limit window false).1.status = 429 ∧
      (simulate_rate_limit store client_ip now limit window false).1.retryAfter =
        some (pyTrunc ((window : ℚ) - (now - d1.window_start)) + 1) ∧
      (simulate_rate_limit store client_ip now limit window false).2 client_ip =
        some d1 ∧
      (0 ≤ (window : ℚ) - (now - d1.window_start) →
        (1 ≤ pyTrunc ((window : ℚ) - (now - d1.window_start)) + 1 ∧
         pyTrunc ((window : ℚ) - (now - d1.window_start)) + 1 =
           ⌊(window : ℚ) - (now - d1.window_start)⌋ + 1 ∧
         ((⌊(window : ℚ) - (now - d1.window_start)⌋ : ℚ) <
             (window : ℚ) - (now - d1.window_start) →
           pyTrunc ((window : ℚ) - (now - d1.window_start)) + 1 =
             ⌈(window : ℚ) - (now - d1.window_start)⌉)))) ∧
    (d1.count < limit →
      (simulate_rate_limit store client_ip now limit window false).1.status = 200 ∧
      (simulate_rate_limit store client_ip now limit window false).1.remainingQuota =
        some (limit - (d1.count + 1)) ∧
      (simulate_rate_limit store client_ip now limit window false).2 client_ip =
        some ⟨d1.count + 1, d1.window_start⟩) ∧
    (∀ k, k ≠ client_ip →
      (simulate_rate_limit store client_ip now limit window false).2 k = store k) := by
  have hunfold :
      simulate_rate_limit store client_ip now limit window false =
        if d1.count ≥ limit then
          let time_remaining : ℚ := (window : ℚ) - (now - d1.window_start)
          let retry : Int := pyTrunc time_remaining + 1
          (.limited retry limit 0 window d1.count d1.window_start client_ip
            [("retry-after", toString retry),
             ("x-ratelimit-limit", toString limit),
             ("x-ratelimit-remaining", "0"),
             ("x-ratelimit-reset", toString (pyTrunc (d1.window_start + (window : ℚ)))),
             ("x-debug-mode", "true")],
           fun k => if k = client_ip then some d1 else store k)
        else
          (.success limit (limit - (d1.count + 1)) window (d1.count + 1)
            [("x-ratelimit-limit", toString limit),
             ("x-ratelimit-remaining", toString (limit - (d1.count + 1))),
             ("x-ratelimit-reset", toString (pyTrunc (d1.window_start + (window : ℚ))))],
           fun k => if k = client_ip then some ⟨d1.count + 1, d1.window_start⟩ else store k) := by
    subst h1
    subst h0
    rw [simulate_rate_limit, if_neg (by simp)]
  refine ⟨?_, ?_, ?_⟩
  · intro hge
    rw [hunfold, if_pos hge]
    refine ⟨rfl, rfl, by simp, ?_⟩
    intro hnn
    have hfloor : pyTrunc ((window : ℚ) - (now - d1.window_start)) =
        ⌊(window : ℚ) - (now - d1.window_start)⌋ := by
      rw [pyTrunc, if_pos hnn]
    refine ⟨?_, by rw [hfloor], ?_⟩
    · rw [hfloor]
      have := Int.le_floor.mpr (by exact_mod_cast hnn :
        ((0 : Int) : ℚ) ≤ (window : ℚ) - (now - d1.window_start))
      omega
    · intro hlt
      rw [hfloor]
      have hceil_le : ⌈(window : ℚ) - (now - d1.window_start)⌉ ≤
          ⌊(window : ℚ) - (now - d1.window_start)⌋ + 1 := by
        apply Int.ceil_le.mpr
        push_cast
        exact le_of_lt (Int.lt_floor_add_one _)
      have hlt_ceil : ⌊(window : ℚ) - (now - d1.window_start)⌋ <
          ⌈(window : ℚ) - (now - d1.window_start)⌉ := by
        have h2 : ((⌊(window : ℚ) - (now - d1.window_start)⌋ : ℚ)) <
            (⌈(window : ℚ) - (now - d1.window_start)⌉ : ℚ) :=
          lt_of_lt_of_le hlt (Int.le_ceil _)
        exact_mod_cast h2
      omega
  · intro hlt
    rw [hunfold, if_neg (by omega)]
    exact ⟨rfl, rfl, by simp⟩
  · intro k hk
    by_cases hge : d1.count ≥ limit
    · rw [hunfold, if_pos hge]
      simp [hk]
    · rw [hunfold, if_neg hge]
      simp [hk]

/-- Witness for C1's amended theorem: a stored counter at count 5 since
time 0, called at time 30 with limit 3 and window 60, is answered 429 with
`retry_after = 31` and the counter left at 5; a fresh client with limit 3
gets 200 with remaining quota 2 and its counter set to 1. -/
theorem simulate_rate_limit_step_witness :
    ((simulate_rate_limit (fun k => if k = "c" then some ⟨5, 0⟩ else none)
        "c" 30 3 60 false).1.status = 429 ∧
     (simulate_rate_limit (fun k => if k = "c" then some ⟨5, 0⟩ else none)
        "c" 30 3 60 false).1.retryAfter = some 31) ∧
    ((simulate_rate_limit (fun _ => none) "d" 0 3 60 false).1.status = 200 ∧
     (simulate_rate_limit (fun _ => none) "d" 0 3 60 false).1.remainingQuota = some 2 ∧
     (simulate_rate_limit (fun _ => none) "d" 0 3 60 false).2 "d" = some ⟨1, 0⟩) := by
  constructor
  · have h := (simulate_rate_limit_step (fun k => if k = "c" then some ⟨5, 0⟩ else none)
      "c" 30 3 60 ⟨5, 0⟩ ⟨5, 0⟩ (by decide) (by norm_num)).1 (by decide)
    refine ⟨h.1, ?_⟩
    rw [h.2.1]
    norm_num [pyTrunc]
  · have h := (simulate_rate_limit_step (fun _ => none) "d" 0 3 60 ⟨0, 0⟩ ⟨0, 0⟩
      rfl (by norm_num)).2.1 (by decide)
    exact ⟨h.1, h.2.1, h.2.2⟩

/-- Claim C10: with `limit ≤ 0`, every non-reset request from a client
whose (possibly lazily created) counter has a nonnegative count and an
unexpired window is answered 429 — including the very first request, whose
lazily created counter starts at count 0 — and the count is never
incremented: the store is unchanged except for the lazy creation of the
counter. -/
theorem simulate_rate_limit_nonpositive_limit (store : Store) (client_ip : String)
    (now : ℚ) (limit window : Int)
    (hlim : limit ≤ 0)
    (hstate : store client_ip = none ∨
      ∃ d, store client_ip = some d ∧ 0 ≤ d.count ∧ now - d.window_start ≤ (window : ℚ)) :
    (simulate_rate_limit store client_ip now limit window false).1.status = 429 ∧
    (simulate_rate_limit store client_ip now limit window false).2 client_ip =
      some (match store client_ip with
            | none => (⟨0, now⟩ : CountData)
            | some d => d) ∧
    (∀ k, k ≠ client_ip →
      (simulate_rate_limit store client_ip now limit window false).2 k = store k) := by
  rcases hstate with hnone | ⟨d, hd, hcount, hwin⟩
  · have step := simulate_rate_limit_step store client_ip now limit window
      ⟨0, now⟩ ⟨0, now⟩ (by rw [hnone]) ?h1
    case h1 =>
      by_cases hw : now - (⟨0, now⟩ : CountData).window_start > (window : ℚ)
      · rw [if_pos hw]
      · rw [if_neg hw]
    · have hge : (⟨0, now⟩ : CountData).count ≥ limit := by
        simpa using hlim
      have h := step.1 hge
      refine ⟨h.1, ?_, step.2.2⟩
      rw [hnone, h.2.2.1]
  · have hno : ¬ (now - d.window_start > (window : ℚ)) := not_lt.mpr hwin
    have step := simulate_rate_limit_step store client_ip now limit window
      d d (by rw [hd]) (by rw [if_neg hno])
    have hge : d.count ≥ limit := le_trans hlim hcount
    have h := step.1 hge
    refine ⟨h.1, ?_, step.2.2⟩
    rw [hd, h.2.2.1]

/-- Witness for C10: a fresh client with limit 0 is 429'd at once and its
counter is created at count 0 without being incremented. -/
theorem simulate_rate_limit_nonpositive_limit_witness :
    (simulate_rate_limit (fun _ => none) "c" 0 0 60 false).1.status = 429 ∧
    (simulate_rate_limit (fun _ => none) "c" 0 0 60 false).2 "c" = some ⟨0, 0⟩ := by
  have h := simulate_rate_limit_nonpositive_limit (fun _ => none) "c" 0 0 60
    (by decide) (Or.inl rfl)
  exact ⟨h.1, h.2.1⟩

/-! ## Random fault handler (`simulate_random`) -/

/-- Python `s.split(sep)` for a one-character separator, over the
character list of the string (matches `"".split(",") = [""]`). -/
def pySplit (sep : Char) : List Char → List (List Char)
  | [] => [[]]
  | c :: rest =>
      let r := pySplit sep rest
      if c = sep then [] :: r
      else
        match r with
        | [] => [[c]]
        | h :: t => (c :: h) :: t

/-- ASCII whitespace, for Python `str.strip()`. -/
def pySpace (c : Char) : Bool :=
  c = ' ' ∨ c = '\t' ∨ c = '\n' ∨ c = '\r' ∨ c = '\x0b' ∨ c = '\x0c'

/-- Python `s.strip()`: drop whitespace from both ends. -/
def pyStrip (cs : List Char) : List Char :=
  ((cs.dropWhile pySpace).reverse.dropWhile pySpace).reverse

/-- Python `int(s.strip())` as a partial parser: optional sign followed by
at least one ASCII digit after stripping surrounding whitespace (the
niceties of `int` not exercised by the inputs here, such as underscore
separators, are out of scope); `none` models the raised `ValueError`. -/
def pyInt (cs : List Char) : Option Int :=
  match pyStrip cs with
  | [] => none
  | c :: rest =>
      let signed : Bool × List Char :=
        if c = '-' then (true, rest)
        else if c = '+' then (false, rest)
        else (false, c :: rest)
      if signed.2 ≠ [] ∧ signed.2.all Char.isDigit then
        let n : Nat := signed.2.foldl (fun acc ch => acc * 10 + (ch.toNat - 48)) 0
        some (if signed.1 then -(n : Int) else (n : Int))
      else
        none

/-- The fixed `possible_codes` pool of `simulate_random`. -/
def base_pool : List Int := [400, 401, 403, 404, 422, 429, 500, 502, 503, 504]

/-- The `excluded` list comprehension: `[int(c.strip()) for c in
s.split(",")]`, which raises `ValueError` (here `none`) if ANY entry is
malformed, leaving `possible_codes` untouched in that case. -/
def parse_excluded (s : String) : Option (List Int) :=
  (pySplit ',' s.data).mapM pyInt

/-- The pool `simulate_random` draws from after exclusion handling: the
try/except around the comprehension, the empty-pool fallback to `[500]`,
and the empty-string guard (`if exclude_codes:`). -/
def possible_codes (exclude_codes : String) : List Int :=
  let pool :=
    if exclude_codes ≠ "" then
      match parse_excluded exclude_codes with
      | some excluded => base_pool.filter (fun c => !excluded.contains c)
      | none => base_pool
    else base_pool
  if pool.isEmpty then [500] else pool

/-- Modelled from the claim's words (for comparison with the source's
`possible_codes`): the pool obtained when malformed exclusion entries are
INDIVIDUALLY ignored, i.e. every entry that parses is excluded and the
unparseable ones are dropped. -/
def claim_pool_individually_ignored (exclude_codes : String) : List Int :=
  let excluded := (pySplit ',' exclude_codes.data).filterMap pyInt
  let pool := base_pool.filter (fun c => !excluded.contains c)
  if pool.isEmpty then [500] else pool

/-- Counterexample to claim C4 as stated: for `exclude_codes = "400,x"`
the claim's individually-ignored reading removes 400 from the pool, but in
the code the single malformed entry `"x"` makes the whole comprehension
raise `ValueError`, the exception handler drops ALL exclusions, and 400
stays in the pool `random.choice` draws from. -/
theorem exclude_codes_not_individually_ignored :
    400 ∈ possible_codes "400,x" ∧
    400 ∉ claim_pool_individually_ignored "400,x" ∧
    possible_codes "400,x" = base_pool := by
  refine ⟨?_, ?_, ?_⟩ <;> decide

/-- Every element of the computed pool lies in the fixed base pool. -/
theorem possible_codes_subset (s : String) {x : Int}
    (hx : x ∈ possible_codes s) : x ∈ base_pool := by
  simp only [possible_codes] at hx
  repeat' split at hx
  any_goals rw [List.eq_of_mem_singleton hx]
  any_goals decide
  any_goals exact List.mem_of_mem_filter hx
  any_goals exact hx

/-- With a non-empty exclusion string whose entries all parse, the pool is
the filtered base pool, with the `[500]` fallback if that is empty. -/
theorem possible_codes_parse_some {s : String} {excluded : List Int}
    (hne : s ≠ "") (hsome : parse_excluded s = some excluded) :
    possible_codes s =
      if (base_pool.filter (fun c => !excluded.contains c)).isEmpty then [500]
      else base_pool.filter (fun c => !excluded.contains c) := by
  unfold possible_codes
  rw [if_pos hne, hsome]

/-- If any exclusion entry is malformed, the whole exclusion list is
dropped and the pool is the full base pool. -/
theorem possible_codes_parse_none {s : String}
    (hnone : parse_excluded s = none) :
    possible_codes s = base_pool := by
  unfold possible_codes
  by_cases hne : s = ""
  · subst hne
    rfl
  · rw [if_pos hne, hnone]
    rfl

/-- Claim C4 (amended): the returned status code is drawn from the fixed
pool minus the exclusion entries WHEN EVERY ENTRY PARSES (falling back to
`{500}` if that empties the pool); if ANY entry is malformed the ENTIRE
exclusion list is silently ignored and the code is drawn from the full
pool; in particular a fully well-formed exclusion list naming all pool
codes but one always yields that remaining one.  `chosen` stands for the
value of `random.choice(possible_codes)`, which is always an element of
the computed pool. -/
theorem simulate_random_pool (exclude_codes : String) (chosen : Int)
    (hchosen : chosen ∈ possible_codes exclude_codes) :
    chosen ∈ base_pool ∧
    (∀ excluded, exclude_codes ≠ "" →
      parse_excluded exclude_codes = some excluded →
      (base_pool.filter (fun c => !excluded.contains c)).isEmpty = false →
      chosen ∉ excluded) ∧
    (∀ excluded, exclude_codes ≠ "" →
      parse_excluded exclude_codes = some excluded →
      (base_pool.filter (fun c => !excluded.contains c)).isEmpty = true →
      chosen = 500) ∧
    (parse_excluded exclude_codes = none →
      possible_codes exclude_codes = base_pool) ∧
    possible_codes "401,403,404,422,429,500,502,503,504" = [400] := by
  refine ⟨possible_codes_subset exclude_codes hchosen, ?_, ?_, ?_, by decide⟩
  · intro excluded hne hsome hnot
    rw [possible_codes_parse_some hne hsome,
      if_neg (by rw [hnot]; exact Bool.false_ne_true)] at hchosen
    simpa using List.of_mem_filter hchosen
  · intro excluded hne hsome hempty
    rw [possible_codes_parse_some hne hsome, if_pos hempty] at hchosen
    exact List.eq_of_mem_singleton hchosen
  · intro hnone
    exact possible_codes_parse_none hnone

/-- Witness for C4's amended theorem: drawing from the pool for the
well-formed list "400,500" excludes 400, and for the malformed list
"400,x" the full pool is kept. -/
theorem simulate_random_pool_witness :
    (401 ∈ possible_codes "400,500" ∧ (401 : Int) ∉ [(400 : Int), 500]) ∧
    possible_codes "400,x" = base_pool := by
  constructor
  · refine ⟨by decide, ?_⟩
    exact (simulate_random_pool "400,500" 401 (by decide)).2.1 [400, 500]
      (by decide) (by decide) (by decide)
  · exact (simulate_random_pool "400,x" 400 (by decide)).2.2.2.1 (by decide)

/-! ## Concurrency of the rate-limit handler -/

/-- Program position of one threadpool worker inside the unsynchronized
critical section of `simulate_rate_limit` for an existing, unexpired
counter: about to evaluate the Python expression
`count_data["count"] >= limit` (`checking`), about to execute
`count_data["count"] += 1` having passed the check that read the stored
count `observed` (`incrementing`), or finished with the request's outcome
(`finished`, success meaning the 200 path was taken). -/
inductive WorkerPC where
  | checking
  | incrementing (observed : Int)
  | finished (success : Bool) (observed : Int)
deriving DecidableEq

/-- Shared state of two concurrent requests for the same client: the
client's stored count plus each worker's position.  (CPython's GIL makes
single bytecodes atomic but not the read-check-increment sequence; there
is no lock in the code.) -/
structure RaceState where
  count : Int
  w1 : WorkerPC
  w2 : WorkerPC
deriving DecidableEq

/-- One atomic step of a worker: the limit check reads the shared count;
the increment writes the shared count read at that moment plus one.
Finished workers do nothing. -/
def workerStep (limit : Int) (count : Int) : WorkerPC → Int × WorkerPC
  | .checking =>
      if count ≥ limit then (count, .finished false count)
      else (count, .incrementing count)
  | .incrementing obs => (count + 1, .finished true obs)
  | .finished b obs => (count, .finished b obs)

/-- Run an interleaving of the two workers: `false` schedules worker 1,
`true` schedules worker 2. -/
def runSchedule (limit : Int) (s : RaceState) : List Bool → RaceState
  | [] => s
  | i :: rest =>
      let s1 :=
        if i then
          let r := workerStep limit s.count s.w2
          ⟨r.1, s.w1, r.2⟩
        else
          let r := workerStep limit s.count s.w1
          ⟨r.1, r.2, s.w2⟩
      runSchedule limit s1 rest

/-- Claim C2 is violated by the code: with `limit = 1` and a fresh counter
at count 0, the interleaving in which both workers evaluate the
`count >= limit` check before either executes `count += 1` makes BOTH
observe the same pre-increment count 0 and BOTH take the 200 success path
— two successes for one slot, the lost-update race the claim says never
happens.  (Serialized, the second request would have been answered 429.) -/
theorem rate_limit_race_double_success :
    runSchedule 1 ⟨0, .checking, .checking⟩ [false, true, false, true] =
      ⟨2, .finished true 0, .finished true 0⟩ ∧
    runSchedule 1 ⟨0, .checking, .checking⟩ [false, false, true, true] =
      ⟨1, .finished true 0, .finished false 1⟩ := by
  constructor <;> rfl

end DiyApi
